import Mathlib

/-!
Shallow embedding of the stale-PR bot (`src/main.go`) and proofs about its
per-pull-request policy engine, startup validation, and helpers.

Modelling conventions:
* Timestamps and durations are `Int` nanoseconds, matching Go's `time.Time`
  and `time.Duration` resolution; `nsPerDay` is `24 * time.Hour` in ns.
* Go's `strings.EqualFold` is modelled as equality after ASCII lowercasing
  (the sentinel label names are ASCII).
* Remote side effects are modelled as an emitted trace of `Action`s, with an
  `Env` record fixing the success/failure outcome of each remote operation;
  the engine is then a pure function from PR snapshot, configuration, clock
  and `Env` to the trace of attempted mutations.
* Go `os.Getenv` returns `""` for unset variables, so raw environment values
  are plain strings; `strconv.Atoi` is modelled by `atoi` below (optional
  sign and base-10 digits, failure on anything else).
-/

namespace StalePRBot

/-- GitHub user as consumed by the bot: `GetLogin` and `GetEmail` of
`go-github`, both returning `""` when absent. -/
structure GHUser where
  login : String
  email : String
  deriving Repr, DecidableEq

/-- Snapshot of an open pull request, as read from the list endpoint. -/
structure PullRequest where
  number : Nat
  title : String
  user : GHUser
  updatedAt : Int
  htmlURL : String
  labels : List String
  deriving Repr, DecidableEq

/-- One day, `time.Duration(1) * 24 * time.Hour`, in nanoseconds. -/
def nsPerDay : Int := 86400000000000

/-- ASCII lowercasing of a string, character by character (the effect of
Go's `strings.ToLower` on ASCII input), in a form the kernel can
evaluate. -/
def lowerAscii (s : String) : String := String.mk (s.data.map Char.toLower)

/-- Model of `strings.EqualFold` restricted to ASCII case folding. -/
def equalFold (a b : String) : Bool := lowerAscii a == lowerAscii b

/-- Model of `hasLabel` from `main.go`: true when some label of the PR matches
`labelName` case-insensitively. -/
def hasLabel (pr : PullRequest) (labelName : String) : Bool :=
  pr.labels.any fun l => equalFold l labelName

/-- Model of `timeSinceLabel` from `main.go`: `time.Since(pr.GetUpdatedAt().Time)`,
i.e. the wall clock minus the PR's last-updated timestamp.  (Despite its
name it reads the PR's own `updatedAt`, not any label timestamp.) -/
def timeSinceLabel (now : Int) (pr : PullRequest) : Int :=
  now - pr.updatedAt

/-- Model of `getEmailFromGitHubUser` from `main.go`: the public email verbatim when
non-empty, otherwise `<lowercased login>@<fallbackEmailDomain>`. -/
def getEmailFromGitHubUser (fallbackEmailDomain : String) (user : GHUser) : String :=
  if user.email ≠ "" then user.email
  else lowerAscii user.login ++ "@" ++ fallbackEmailDomain

/-- The remote mutations and email sends the engine can attempt for one PR. -/
inductive Action where
  | removeWarningLabel
  | closePR
  | sendWarningEmail (recipient : String)
  | sendClosureEmail (recipient : String)
  | addWarningLabel
  deriving Repr, DecidableEq, BEq

/-- Outcomes of the remote operations for one PR: whether each attempted
operation succeeds.  Unattempted operations read none of these fields. -/
structure Env where
  removeLabelOk : Bool
  closeOk : Bool
  sendWarningOk : Bool
  sendClosureOk : Bool
  addLabelOk : Bool
  deriving Repr, DecidableEq

/-- Model of `warnPRAuthor` from `main.go`: resolve the address; when it is empty,
skip sending and return success (`nil`); otherwise attempt the warning send,
whose outcome is `env.sendWarningOk`.  Returns the attempted actions and
whether the call returned without error. -/
def warnPRAuthor (domain : String) (env : Env) (pr : PullRequest) : List Action × Bool :=
  let addr := getEmailFromGitHubUser domain pr.user
  if addr = "" then ([], true)
  else ([Action.sendWarningEmail addr], env.sendWarningOk)

/-- Model of `notifyPRClosure` from `main.go`: same shape as `warnPRAuthor` with the
closure template. -/
def notifyPRClosure (domain : String) (env : Env) (pr : PullRequest) : List Action × Bool :=
  let addr := getEmailFromGitHubUser domain pr.user
  if addr = "" then ([], true)
  else ([Action.sendClosureEmail addr], env.sendClosureOk)

/-- Per-run configuration after flag/environment resolution (`main.go`
flag block). -/
structure Config where
  githubToken : String
  githubBaseURL : String
  owner : String
  repo : String
  daysInactive : Int
  warningPeriod : Int
  smtpServer : String
  smtpPort : Int
  smtpUser : String
  smtpPassword : String
  emailDomain : String
  deriving Repr, DecidableEq

/-- The loop body of `main` for one PR (`main.go` lines 140-210): the trace
of attempted remote operations, in program order.  `now` is the single wall
clock of the run (`staleCutoff` is computed from it before the loop). -/
def processPR (cfg : Config) (now : Int) (env : Env) (pr : PullRequest) : List Action :=
  if hasLabel pr "do not stale" then
    if hasLabel pr "stale-warning" then [Action.removeWarningLabel] else []
  else if pr.updatedAt < now - cfg.daysInactive * nsPerDay then
    if hasLabel pr "stale-warning" then
      if timeSinceLabel now pr > cfg.warningPeriod * nsPerDay then
        if env.closeOk then
          Action.closePR :: (notifyPRClosure cfg.emailDomain env pr).1
        else [Action.closePR]
      else []
    else
      let sent := warnPRAuthor cfg.emailDomain env pr
      if sent.2 then sent.1 ++ [Action.addWarningLabel] else sent.1
  else
    if hasLabel pr "stale-warning" then [Action.removeWarningLabel] else []

/-- Raw environment variable values as seen by `os.Getenv` in `main`:
`""` doubles as "unset", exactly as in Go. -/
structure RawEnv where
  githubToken : String
  githubBaseURL : String
  owner : String
  repo : String
  daysInactive : String
  warningPeriod : String
  smtpServer : String
  smtpPort : String
  smtpUser : String
  smtpPassword : String
  emailDomain : String
  deriving Repr, DecidableEq

/-- Accumulate base-10 digits; `none` as soon as a non-digit appears. -/
def decValueAux : List Char → Nat → Option Nat
  | [], acc => some acc
  | c :: cs, acc =>
      if c.isDigit then decValueAux cs (10 * acc + (c.toNat - 48)) else none

/-- Model of `strconv.Atoi`: an optional sign followed by at least one
base-10 digit, `none` on any malformed input.  (Go's 64-bit overflow error
has no counterpart over `Int`; none of the claims concern overflow.) -/
def atoi (s : String) : Option Int :=
  match s.data with
  | [] => none
  | '+' :: [] => none
  | '+' :: cs => (decValueAux cs 0).map Int.ofNat
  | '-' :: [] => none
  | '-' :: cs => (decValueAux cs 0).map fun n => -(Int.ofNat n)
  | cs => (decValueAux cs 0).map Int.ofNat

/-- The repeated pattern in `main`: keep `dflt` unless the variable is set
and parses as an integer. -/
def envInt (v : String) (dflt : Int) : Int :=
  if v ≠ "" then
    match atoi v with
    | some n => n
    | none => dflt
  else dflt

/-- Configuration produced from environment variables alone (`main.go`
lines 47-76), before any command-line flag overrides: string values are
taken verbatim, the day thresholds default to `0`, the SMTP port to `587`,
and the fallback email domain to `"example.com"`. -/
def configFromEnv (e : RawEnv) : Config where
  githubToken := e.githubToken
  githubBaseURL := e.githubBaseURL
  owner := e.owner
  repo := e.repo
  daysInactive := envInt e.daysInactive 0
  warningPeriod := envInt e.warningPeriod 0
  smtpServer := e.smtpServer
  smtpPort := envInt e.smtpPort 587
  smtpUser := e.smtpUser
  smtpPassword := e.smtpPassword
  emailDomain := if e.emailDomain = "" then "example.com" else e.emailDomain

/-- The sanity check of `main.go` lines 96-97: true exactly when the run
must abort with `log.Fatal("Missing required parameter. ...")`.  Note it
inspects `smtpServer` but never `smtpPort`. -/
def missingRequiredParameter (cfg : Config) : Bool :=
  cfg.githubToken == "" || cfg.githubBaseURL == "" || cfg.owner == "" ||
  cfg.repo == "" || decide (cfg.daysInactive ≤ 0) ||
  decide (cfg.warningPeriod ≤ 0) || cfg.smtpServer == "" ||
  cfg.smtpUser == "" || cfg.smtpPassword == ""

/-- Outcome of a whole run of `main`. -/
inductive BotOutcome where
  | fatalConfig (msg : String)
  | fatalClient (msg : String)
  | fatalConnection (msg : String)
  | fatalFetch (msg : String)
  | completed (results : List (Nat × List Action))
  deriving Repr, DecidableEq

/-- The PR loop of `main`: every fetched PR is processed in order, each
with its own operation outcomes (`envOf` keyed by PR number); no per-PR
failure breaks the loop (the Go loop body contains no `break` or
`return`). -/
def processAll (cfg : Config) (now : Int) (envOf : Nat → Env) :
    List PullRequest → List (Nat × List Action)
  | [] => []
  | pr :: rest =>
      (pr.number, processPR cfg now (envOf pr.number) pr) ::
        processAll cfg now envOf rest

/-- Model of `main` after flag resolution: sanity check, then client creation, then
the connectivity test, then the initial listing, then the PR loop.  The
`Except` arguments are the outcomes of the three remote startup steps. -/
def runMain (cfg : Config) (now : Int) (envOf : Nat → Env)
    (clientRes : Except String Unit) (connRes : Except String Unit)
    (fetchRes : Except String (List PullRequest)) : BotOutcome :=
  if missingRequiredParameter cfg then
    BotOutcome.fatalConfig
      "Missing required parameter. Please ensure all required flags or environment variables are set."
  else
    match clientRes with
    | Except.error e => BotOutcome.fatalClient e
    | Except.ok _ =>
      match connRes with
      | Except.error e => BotOutcome.fatalConnection e
      | Except.ok _ =>
        match fetchRes with
        | Except.error e => BotOutcome.fatalFetch e
        | Except.ok prs => BotOutcome.completed (processAll cfg now envOf prs)

/-! Concrete sample data used to instantiate the theorems below. -/

/-- A fully populated, valid configuration: 30 days to staleness, 7 days of
grace. -/
def cfg0 : Config where
  githubToken := "t"
  githubBaseURL := "https://api.github.com/"
  owner := "o"
  repo := "r"
  daysInactive := 30
  warningPeriod := 7
  smtpServer := "smtp.example.com"
  smtpPort := 587
  smtpUser := "u"
  smtpPassword := "p"
  emailDomain := "example.com"

/-- A sample clock: 100 days after the epoch of the timestamps below. -/
def now0 : Int := 100 * nsPerDay

/-- Every remote operation succeeds. -/
def envAllOk : Env where
  removeLabelOk := true
  closeOk := true
  sendWarningOk := true
  sendClosureOk := true
  addLabelOk := true

/-- Every remote operation fails. -/
def envAllFail : Env where
  removeLabelOk := false
  closeOk := false
  sendWarningOk := false
  sendClosureOk := false
  addLabelOk := false

/-- An author with no public email. -/
def userBob : GHUser where
  login := "Bob"
  email := ""

/-- Opted out and still carrying the warning label. -/
def prOptOut : PullRequest where
  number := 14
  title := "opted out"
  user := userBob
  updatedAt := 0
  htmlURL := "https://example.com/pr/14"
  labels := ["do not stale", "stale-warning"]

/-- Stale (untouched since the epoch) and already warned. -/
def prWarned : PullRequest where
  number := 12
  title := "stale and warned"
  user := userBob
  updatedAt := 0
  htmlURL := "https://example.com/pr/12"
  labels := ["stale-warning"]

/-- Active (updated one day before `now0`) but still labelled. -/
def prFresh : PullRequest where
  number := 13
  title := "recovered"
  user := userBob
  updatedAt := 99 * nsPerDay
  htmlURL := "https://example.com/pr/13"
  labels := ["stale-warning"]

/-- Stale with no labels at all. -/
def prNoLabels : PullRequest where
  number := 15
  title := "stale, unwarned"
  user := userBob
  updatedAt := 0
  htmlURL := "https://example.com/pr/15"
  labels := []

/-! Helper lemmas shared by the claim theorems. -/

/-- The recipient resolver never returns the empty string: the fallback
branch always contains the `@` separator. -/
theorem getEmail_ne_empty (d : String) (u : GHUser) :
    getEmailFromGitHubUser d u ≠ "" := by
  unfold getEmailFromGitHubUser
  split
  · assumption
  · intro h
    have hlen := congrArg String.length h
    rw [String.length_append, String.length_append] at hlen
    have hat : "@".length = 1 := rfl
    have hempty : ("" : String).length = 0 := rfl
    rw [hat, hempty] at hlen
    omega

/-- A variable that is unset or fails to parse leaves the default in
place. -/
theorem envInt_eq_default (v : String) (d : Int) (h : atoi v = none) :
    envInt v d = d := by
  unfold envInt
  split
  · rw [h]
  · rfl

/-- The PR loop is exactly a map over the fetched list: each entry depends
only on its own PR and that PR's operation outcomes. -/
theorem processAll_eq_map (cfg : Config) (now : Int) (envOf : Nat → Env)
    (prs : List PullRequest) :
    processAll cfg now envOf prs =
      prs.map fun pr => (pr.number, processPR cfg now (envOf pr.number) pr) := by
  induction prs with
  | nil => rfl
  | cons pr rest ih => simp [processAll, ih]

/-! Claim theorems. -/

/-- C1: a PR carrying the opt-out label `do not stale` triggers no close,
no warning-label add, and no email, regardless of staleness (`now`, the
thresholds and the timestamps are arbitrary); its whole trace is one
removal of the `stale-warning` label when that label is present, and empty
otherwise; in particular the removal happens exactly once. -/
theorem optOut_pr_fully_exempt (cfg : Config) (now : Int) (env : Env)
    (pr : PullRequest) (h : hasLabel pr "do not stale" = true) :
    processPR cfg now env pr =
      (if hasLabel pr "stale-warning" then [Action.removeWarningLabel] else []) ∧
    Action.closePR ∉ processPR cfg now env pr ∧
    Action.addWarningLabel ∉ processPR cfg now env pr ∧
    (∀ a : String, Action.sendWarningEmail a ∉ processPR cfg now env pr ∧
        Action.sendClosureEmail a ∉ processPR cfg now env pr) ∧
    (hasLabel pr "stale-warning" = true →
      (processPR cfg now env pr).count Action.removeWarningLabel = 1) := by
  have htr : processPR cfg now env pr =
      (if hasLabel pr "stale-warning" then [Action.removeWarningLabel] else []) := by
    simp [processPR, h]
  rw [htr]
  cases hw : hasLabel pr "stale-warning" <;> simp
  decide

/-- Witness for C1 at the opted-out, still-labelled PR. -/
theorem optOut_pr_fully_exempt_witness :
    processPR cfg0 now0 envAllOk prOptOut =
      (if hasLabel prOptOut "stale-warning" then [Action.removeWarningLabel] else []) :=
  (optOut_pr_fully_exempt cfg0 now0 envAllOk prOptOut (by decide)).1

/-- C4: for an active PR (last-updated at or after `now − inactivityDays`)
the engine's whole trace is one removal of the warning label when that
label is present and empty otherwise — irrespective of the opt-out label
and of every operation outcome. -/
theorem active_pr_frame (cfg : Config) (now : Int) (env : Env)
    (pr : PullRequest)
    (hactive : ¬ pr.updatedAt < now - cfg.daysInactive * nsPerDay) :
    processPR cfg now env pr =
      (if hasLabel pr "stale-warning" then [Action.removeWarningLabel] else []) ∧
    ∀ a ∈ processPR cfg now env pr, a = Action.removeWarningLabel := by
  have htr : processPR cfg now env pr =
      (if hasLabel pr "stale-warning" then [Action.removeWarningLabel] else []) := by
    by_cases hd : hasLabel pr "do not stale" = true
    · simp [processPR, hd]
    · have hd2 : hasLabel pr "do not stale" = false := by simpa using hd
      simp [processPR, hd2, hactive]
  rw [htr]
  cases hw : hasLabel pr "stale-warning" <;> simp

/-- Witness for C4 at the active, still-labelled PR. -/
theorem active_pr_frame_witness :
    processPR cfg0 now0 envAllOk prFresh =
      (if hasLabel prFresh "stale-warning" then [Action.removeWarningLabel] else []) :=
  (active_pr_frame cfg0 now0 envAllOk prFresh (by decide)).1

/-- C5: the recipient resolver is a pure function of author and fallback
domain: a non-empty public email is returned verbatim; otherwise it returns
the lowercased handle, `@`, and the fallback domain; it never fails, in
fact it never returns the empty string at all, so a fortiori an empty
result implies an empty handle. -/
theorem recipient_resolver_pure (d : String) (u : GHUser) :
    (u.email ≠ "" → getEmailFromGitHubUser d u = u.email) ∧
    (u.email = "" → getEmailFromGitHubUser d u = lowerAscii u.login ++ "@" ++ d) ∧
    getEmailFromGitHubUser d u ≠ "" ∧
    (getEmailFromGitHubUser d u = "" → u.login = "") := by
  refine ⟨fun h => ?_, fun h => ?_, getEmail_ne_empty d u,
    fun h => absurd h (getEmail_ne_empty d u)⟩
  · rw [getEmailFromGitHubUser, if_pos h]
  · rw [getEmailFromGitHubUser, if_neg (by simp [h])]

/-- Witness for C5: the spec's two examples of recipient resolution. -/
theorem recipient_resolver_pure_witness :
    getEmailFromGitHubUser "example.com" userBob = "bob@example.com" ∧
    getEmailFromGitHubUser "example.com" { login := "x", email := "a@b.com" } = "a@b.com" := by
  constructor
  · have h := (recipient_resolver_pure "example.com" userBob).2.1 (by decide)
    rw [h]; decide
  · exact (recipient_resolver_pure "example.com" { login := "x", email := "a@b.com" }).1 (by decide)

/-- C7: label membership is case-insensitive: any stored label equal to the
queried sentinel name up to letter case makes `hasLabel` report true. -/
theorem hasLabel_case_insensitive (pr : PullRequest) (l name : String)
    (hmem : l ∈ pr.labels) (hcase : lowerAscii l = lowerAscii name) :
    hasLabel pr name = true := by
  unfold hasLabel
  rw [List.any_eq_true]
  exact ⟨l, hmem, by simp [equalFold, hcase]⟩

/-- Witness for C7: an upper-cased query matches the stored lowercase
label. -/
theorem hasLabel_case_insensitive_witness :
    hasLabel prOptOut "Do Not Stale" = true :=
  hasLabel_case_insensitive prOptOut "do not stale" "Do Not Stale"
    (by decide) (by decide)

/-- C2: for a stale PR that already carries the warning label, a close is
attempted exactly when `now − lastUpdated` exceeds the warning period; a
closure email is attempted exactly when moreover the close succeeded (a
failed close sends no notice, and the close attempt stands in the trace
whatever the notice outcome); and within the warning period the trace is
empty. -/
theorem stale_warned_close_policy (cfg : Config) (now : Int) (env : Env)
    (pr : PullRequest)
    (hopt : hasLabel pr "do not stale" = false)
    (hstale : pr.updatedAt < now - cfg.daysInactive * nsPerDay)
    (hw : hasLabel pr "stale-warning" = true) :
    (Action.closePR ∈ processPR cfg now env pr ↔
        now - pr.updatedAt > cfg.warningPeriod * nsPerDay) ∧
    ((∃ a, Action.sendClosureEmail a ∈ processPR cfg now env pr) ↔
        now - pr.updatedAt > cfg.warningPeriod * nsPerDay ∧ env.closeOk = true) ∧
    (¬ now - pr.updatedAt > cfg.warningPeriod * nsPerDay →
        processPR cfg now env pr = []) := by
  have hne := getEmail_ne_empty cfg.emailDomain pr.user
  by_cases hp : now - pr.updatedAt > cfg.warningPeriod * nsPerDay
  · cases hc : env.closeOk
    · have htr : processPR cfg now env pr = [Action.closePR] := by
        simp [processPR, hopt, hw, hstale, timeSinceLabel, hp, hc]
      rw [htr]
      simp [hp, hc]
    · have htr : processPR cfg now env pr =
          [Action.closePR,
           Action.sendClosureEmail (getEmailFromGitHubUser cfg.emailDomain pr.user)] := by
        simp [processPR, hopt, hw, hstale, timeSinceLabel, hp, hc,
          notifyPRClosure, hne]
      rw [htr]
      simp [hp]
  · have htr : processPR cfg now env pr = [] := by
      simp [processPR, hopt, hw, hstale, timeSinceLabel, hp]
    rw [htr]
    simp [hp]

/-- Witness for C2: the sample stale, warned PR is past the grace period,
so a close is attempted. -/
theorem stale_warned_close_policy_witness :
    Action.closePR ∈ processPR cfg0 now0 envAllOk prWarned :=
  (stale_warned_close_policy cfg0 now0 envAllOk prWarned (by decide) (by decide)
    (by decide)).1.mpr (by decide)

/-- C3: for a stale PR without the warning label the trace always begins
with a warning email attempt, and contains the label add exactly when the
send succeeded; on send failure the trace is the bare attempt, so nothing
marks the PR as warned. -/
theorem stale_unwarned_warn_policy (cfg : Config) (now : Int) (env : Env)
    (pr : PullRequest)
    (hopt : hasLabel pr "do not stale" = false)
    (hstale : pr.updatedAt < now - cfg.daysInactive * nsPerDay)
    (hw : hasLabel pr "stale-warning" = false) :
    processPR cfg now env pr =
      Action.sendWarningEmail (getEmailFromGitHubUser cfg.emailDomain pr.user) ::
        (if env.sendWarningOk then [Action.addWarningLabel] else []) ∧
    (Action.addWarningLabel ∈ processPR cfg now env pr ↔
        env.sendWarningOk = true) ∧
    (env.sendWarningOk = false →
      processPR cfg now env pr =
        [Action.sendWarningEmail (getEmailFromGitHubUser cfg.emailDomain pr.user)]) := by
  have hne := getEmail_ne_empty cfg.emailDomain pr.user
  have htr : processPR cfg now env pr =
      Action.sendWarningEmail (getEmailFromGitHubUser cfg.emailDomain pr.user) ::
        (if env.sendWarningOk then [Action.addWarningLabel] else []) := by
    cases hs : env.sendWarningOk <;>
      simp [processPR, hopt, hw, hstale, warnPRAuthor, hne, hs]
  rw [htr]
  cases hs : env.sendWarningOk <;> simp [hs]

/-- Witness for C3 at the stale, unlabelled PR with a successful send. -/
theorem stale_unwarned_warn_policy_witness :
    processPR cfg0 now0 envAllOk prNoLabels =
      Action.sendWarningEmail (getEmailFromGitHubUser cfg0.emailDomain prNoLabels.user) ::
        (if envAllOk.sendWarningOk then [Action.addWarningLabel] else []) :=
  (stale_unwarned_warn_policy cfg0 now0 envAllOk prNoLabels (by decide) (by decide)
    (by decide)).1

/-- C9: the elapsed warning time is measured from the PR's own last-updated
timestamp, so whenever `warningPeriod ≤ daysInactive`, every stale PR with
the warning label is already past the grace period and the close branch is
taken. -/
theorem warning_period_subsumed_by_staleness (cfg : Config) (now : Int)
    (env : Env) (pr : PullRequest)
    (hle : cfg.warningPeriod ≤ cfg.daysInactive)
    (hopt : hasLabel pr "do not stale" = false)
    (hstale : pr.updatedAt < now - cfg.daysInactive * nsPerDay)
    (hw : hasLabel pr "stale-warning" = true) :
    timeSinceLabel now pr > cfg.warningPeriod * nsPerDay ∧
    Action.closePR ∈ processPR cfg now env pr := by
  have hmul : cfg.warningPeriod * nsPerDay ≤ cfg.daysInactive * nsPerDay :=
    mul_le_mul_of_nonneg_right hle (by norm_num [nsPerDay])
  have hgt : now - pr.updatedAt > cfg.warningPeriod * nsPerDay := by
    linarith [hstale, hmul]
  refine ⟨hgt, ?_⟩
  cases hc : env.closeOk <;>
    simp [processPR, hopt, hw, hstale, timeSinceLabel, hgt, hc, notifyPRClosure,
      getEmail_ne_empty]

/-- Witness for C9: with the sample thresholds (7 ≤ 30) the stale, warned
PR is necessarily past the grace period. -/
theorem warning_period_subsumed_by_staleness_witness :
    timeSinceLabel now0 prWarned > cfg0.warningPeriod * nsPerDay :=
  (warning_period_subsumed_by_staleness cfg0 now0 envAllFail prWarned (by decide)
    (by decide) (by decide) (by decide)).1

/-- C6: when the token, base URL, owner, repo, SMTP user or SMTP password
is missing, or either day threshold is not strictly positive, the run ends
in the fatal configuration diagnostic — whatever the outcomes of client
creation, the connectivity test and the listing would have been, i.e.
before any remote operation matters. -/
theorem startup_sanity_check_fatal (cfg : Config) (now : Int)
    (envOf : Nat → Env) (clientRes connRes : Except String Unit)
    (fetchRes : Except String (List PullRequest))
    (h : cfg.githubToken = "" ∨ cfg.githubBaseURL = "" ∨ cfg.owner = "" ∨
         cfg.repo = "" ∨ cfg.smtpUser = "" ∨ cfg.smtpPassword = "" ∨
         cfg.daysInactive ≤ 0 ∨ cfg.warningPeriod ≤ 0) :
    runMain cfg now envOf clientRes connRes fetchRes =
      BotOutcome.fatalConfig
        "Missing required parameter. Please ensure all required flags or environment variables are set." := by
  have hm : missingRequiredParameter cfg = true := by
    unfold missingRequiredParameter
    rcases h with h | h | h | h | h | h | h | h <;> simp [h]
  simp [runMain, hm]

/-- Witness for C6: a configuration lacking only the token is rejected even
though every remote step would have succeeded. -/
theorem startup_sanity_check_fatal_witness :
    runMain { cfg0 with githubToken := "" } now0 (fun _ => envAllOk)
        (Except.ok ()) (Except.ok ()) (Except.ok [prWarned]) =
      BotOutcome.fatalConfig
        "Missing required parameter. Please ensure all required flags or environment variables are set." :=
  startup_sanity_check_fatal { cfg0 with githubToken := "" } now0 (fun _ => envAllOk)
    (Except.ok ()) (Except.ok ()) (Except.ok [prWarned]) (Or.inl rfl)

/-- C8: with a valid configuration, a failed initial listing aborts the
whole run with no per-PR results, while a successful listing yields exactly
one result per fetched PR, each computed from that PR and its own operation
outcomes alone — so no per-PR failure can abort processing of the rest. -/
theorem fetch_fatal_but_per_pr_isolated (cfg : Config) (now : Int)
    (envOf : Nat → Env) (e : String) (prs : List PullRequest)
    (hcfg : missingRequiredParameter cfg = false) :
    runMain cfg now envOf (Except.ok ()) (Except.ok ()) (Except.error e) =
      BotOutcome.fatalFetch e ∧
    runMain cfg now envOf (Except.ok ()) (Except.ok ()) (Except.ok prs) =
      BotOutcome.completed
        (prs.map fun pr => (pr.number, processPR cfg now (envOf pr.number) pr)) := by
  constructor
  · simp [runMain, hcfg]
  · simp [runMain, hcfg, processAll_eq_map]

/-- Witness for C8: even with every remote operation failing, both PRs of a
two-element listing get processed, and an error listing is fatal. -/
theorem fetch_fatal_but_per_pr_isolated_witness :
    runMain cfg0 now0 (fun _ => envAllFail) (Except.ok ()) (Except.ok ())
        (Except.ok [prWarned, prNoLabels]) =
      BotOutcome.completed
        ([prWarned, prNoLabels].map fun pr =>
          (pr.number, processPR cfg0 now0 ((fun _ => envAllFail) pr.number) pr)) :=
  (fetch_fatal_but_per_pr_isolated cfg0 now0 (fun _ => envAllFail) "boom"
    [prWarned, prNoLabels] (by decide)).2

/-- C10: a `DAYS_INACTIVE`, `WARNING_PERIOD` or `SMTP_PORT` value that does
not parse as an integer is silently replaced by the default (0, 0 and 587
respectively) instead of being reported, and the startup sanity check never
reads the SMTP port, so changing the port to any integer whatsoever leaves
its verdict unchanged. -/
theorem bad_numeric_env_silently_defaulted (e : RawEnv) (cfg : Config) (p : Int)
    (hd : atoi e.daysInactive = none) (hw : atoi e.warningPeriod = none)
    (hp : atoi e.smtpPort = none) :
    (configFromEnv e).daysInactive = 0 ∧
    (configFromEnv e).warningPeriod = 0 ∧
    (configFromEnv e).smtpPort = 587 ∧
    missingRequiredParameter { cfg with smtpPort := p } =
      missingRequiredParameter cfg :=
  ⟨envInt_eq_default e.daysInactive 0 hd, envInt_eq_default e.warningPeriod 0 hw,
   envInt_eq_default e.smtpPort 587 hp, rfl⟩

/-- Witness for C10: non-numeric values for the three numeric variables,
and a negative port accepted by the sanity check. -/
theorem bad_numeric_env_silently_defaulted_witness :
    (configFromEnv
      { githubToken := "t", githubBaseURL := "b", owner := "o", repo := "r",
        daysInactive := "thirty", warningPeriod := "7days", smtpServer := "s",
        smtpPort := "587a", smtpUser := "u", smtpPassword := "p",
        emailDomain := "" }).smtpPort = 587 ∧
    missingRequiredParameter { cfg0 with smtpPort := -1 } =
      missingRequiredParameter cfg0 :=
  ⟨(bad_numeric_env_silently_defaulted
      { githubToken := "t", githubBaseURL := "b", owner := "o", repo := "r",
        daysInactive := "thirty", warningPeriod := "7days", smtpServer := "s",
        smtpPort := "587a", smtpUser := "u", smtpPassword := "p",
        emailDomain := "" } cfg0 (-1) (by decide) (by decide) (by decide)).2.2.1,
   (bad_numeric_env_silently_defaulted
      { githubToken := "t", githubBaseURL := "b", owner := "o", repo := "r",
        daysInactive := "thirty", warningPeriod := "7days", smtpServer := "s",
        smtpPort := "587a", smtpUser := "u", smtpPassword := "p",
        emailDomain := "" } cfg0 (-1) (by decide) (by decide) (by decide)).2.2.2⟩

end StalePRBot
